import Mathlib

/-!
Verification of the modal-reduction core of `ChModalAssembly`
(src/src/chrono_modal/ChModalAssembly.cpp) against its specification.

The C++ code is shallowly embedded over exact rational arithmetic
(`ℚ` in place of `double`): every matrix of the source is a Mathlib
`Matrix` over `ℚ`, indexed by `Fin`/`Sum`/product types mirroring the
contiguous block layout of the C++ vectors (a 6-DOF node block
`[translation(3); rotation(3)]` becomes `Fin 3 ⊕ Fin 3`, the
boundary/internal or boundary/modal concatenation becomes a `Sum`).
External collaborators (the Eigen sparse factorization, the eigensolver,
the damping model, parent-class bookkeeping and the quaternion utility
functions that live outside the embedded translation unit) enter as
explicit function parameters.
-/

namespace ChronoModal

open Matrix

/-- One 6-DOF velocity-level node block: translational 3 coordinates
(`Sum.inl`) followed by rotational 3 coordinates (`Sum.inr`),
mirroring the contiguous `[6*i .. 6*i+5]` layout of the C++ state. -/
abbrev C6 := Fin 3 ⊕ Fin 3

/-- One 7-coordinate position-level node block: position (`Sum.inl`)
followed by the 4-component rotation quaternion (`Sum.inr`). -/
abbrev C7 := Fin 3 ⊕ Fin 4

/-- Modelled from the spec: `ChStarMatrix33` (chrono/core, outside the
embedded translation unit) — the skew-symmetric cross-product operator
built from a 3-vector, the "cross-product operator blocks" of §4.5. -/
def star3 (w : Fin 3 → ℚ) : Matrix (Fin 3) (Fin 3) ℚ :=
  !![0, -w 2, w 1; w 2, 0, -w 0; -w 1, w 0, 0]

section LocalFullKRM

/-!
**Section:** `ChModalAssembly::ComputeLocalFullKRMmatrix` (lines 704-827)

The coordinate index of the full (boundary + internal) assembly, with
`nbN` boundary nodes and `niN` internal nodes of 6 velocity-level
coordinates each (`n_boundary_coords_w = 6*nbN`,
`n_internal_coords_w = 6*niN`).
-/

/-- Full velocity-level coordinate index: boundary nodes (`Sum.inl`)
then internal nodes (`Sum.inr`), each with a 6-coordinate block. -/
abbrev NodeIdx (nbN niN : Nat) := (Fin nbN ⊕ Fin niN) × C6

/-- Overwrite the translational 3×3 diagonal block of node `k` with `B`,
embedding `P_BI.block(6 * i, 6 * i, 3, 3) = R_F` applied to a matrix
previously initialized (`setIdentity`). -/
def setTransBlock {nbN niN : Nat} (A : Matrix (NodeIdx nbN niN) (NodeIdx nbN niN) ℚ)
    (k : Fin nbN ⊕ Fin niN) (B : Matrix (Fin 3) (Fin 3) ℚ) :
    Matrix (NodeIdx nbN niN) (NodeIdx nbN niN) ℚ :=
  fun r c =>
    match r, c with
    | (nr, Sum.inl tr), (nc, Sum.inl tc) => if nr = k ∧ nc = k then B tr tc else A r c
    | _, _ => A r c

/-- The loop shape `for (int i = 0; i < n; i++) { body(i); i++; }` of the
source: the body runs at `i = 0, 2, 4, ...` because the index is
incremented both in the loop header and at the end of the body.
Structural recursion on a fuel argument; with `fuel = n` and start
index `0` the fuel never runs out (each iteration advances `i` by 2). -/
def doubleIncLoop {α : Type} (f : Nat → α → α) : Nat → Nat → Nat → α → α
  | 0, _, _, a => a
  | fuel + 1, n, i, a => if i < n then doubleIncLoop f fuel n (i + 2) (f i a) else a

/-- The operator `P_BI` of `ComputeLocalFullKRMmatrix` (lines 717-727):
starts as the identity; the boundary loop (lines 719-722) and the
internal loop (lines 723-726) overwrite translational diagonal blocks
with `R_F` — but both loops increment their index twice per iteration
(`i_bou++` in the header and again in the body), so only nodes
`0, 2, 4, ...` of each section are rotated. -/
def P_BI (nbN niN : Nat) (R_F : Matrix (Fin 3) (Fin 3) ℚ) :
    Matrix (NodeIdx nbN niN) (NodeIdx nbN niN) ℚ :=
  let A1 := doubleIncLoop
    (fun k A => if h : k < nbN then setTransBlock A (Sum.inl ⟨k, h⟩) R_F else A)
    nbN nbN 0 (1 : Matrix (NodeIdx nbN niN) (NodeIdx nbN niN) ℚ)
  doubleIncLoop
    (fun k A => if h : k < niN then setTransBlock A (Sum.inr ⟨k, h⟩) R_F else A)
    niN niN 0 A1

/-- `ComputeLocalFullKRMmatrix` (lines 704-737): localize the assembled
full matrices by the operator `P_BI`:
`full_M_loc = P_BIᵀ * full_M * P_BI` (and likewise `K`, `R`), and
`full_Cq_loc = full_Cq * P_BI`.  The sparse-view conversion and
`makeCompressed` calls are representation-only. -/
def computeLocalFullKRMmatrix {nbN niN nc : Nat}
    (full_M full_K full_R : Matrix (NodeIdx nbN niN) (NodeIdx nbN niN) ℚ)
    (full_Cq : Matrix (Fin nc) (NodeIdx nbN niN) ℚ)
    (R_F : Matrix (Fin 3) (Fin 3) ℚ) :
    Matrix (NodeIdx nbN niN) (NodeIdx nbN niN) ℚ ×
    Matrix (NodeIdx nbN niN) (NodeIdx nbN niN) ℚ ×
    Matrix (NodeIdx nbN niN) (NodeIdx nbN niN) ℚ ×
    Matrix (Fin nc) (NodeIdx nbN niN) ℚ :=
  let P := P_BI nbN niN R_F
  (Pᵀ * full_M * P, Pᵀ * full_K * P, Pᵀ * full_R * P, full_Cq * P)

/-- Rotation by 90 degrees about the z axis, a concrete floating-frame
orientation `R_F` used as a test input. -/
def rotZ90 : Matrix (Fin 3) (Fin 3) ℚ := !![0, -1, 0; 1, 0, 0; 0, 0, 1]

end LocalFullKRM

section ModalReduction

/-!
**Section:** `ChModalAssembly::DoModalReduction` (lines 829-972)

Dimensions: `nB = n_boundary_coords_w`, `nI = n_internal_coords_w`,
`m = n_modes_coords_w`, `dB = n_boundary_doc_w`, `dI = n_internal_doc_w`.
Full local matrices are indexed boundary-block-first
(`Fin nB ⊕ Fin nI`), constraint rows boundary-rows-first
(`Fin dB ⊕ Fin dI`), reduced coordinates as `Fin nB ⊕ Fin m`.
-/

/-- The mode set produced by the modal solver and stored in the assembly
(`modes_V` with a real and an imaginary part, `modes_eig`, `modes_freq`,
`modes_damping_ratio`); the sizes are explicit so that the source's
`resize(0)` invalidation is expressible. -/
structure ModeSet where
  nrows : Nat
  ncols : Nat
  V_re : Matrix (Fin nrows) (Fin ncols) ℚ
  V_im : Matrix (Fin nrows) (Fin ncols) ℚ
  neig : Nat
  eig_re : Fin neig → ℚ
  eig_im : Fin neig → ℚ
  nfreq : Nat
  freq : Fin nfreq → ℚ
  ndamp : Nat
  damp : Fin ndamp → ℚ

/-- The cleared mode set: every component resized to zero. -/
def ModeSet.empty : ModeSet :=
  { nrows := 0, ncols := 0
    V_re := fun i => i.elim0, V_im := fun i => i.elim0
    neig := 0, eig_re := fun i => i.elim0, eig_im := fun i => i.elim0
    nfreq := 0, freq := fun i => i.elim0
    ndamp := 0, damp := fun i => i.elim0 }

/-- Bounds-checked read of the real part of `modes_V` at global row `r`
(boundary rows first) and column `c`.  When the stored mode set has the
expected size `(nB+nI) × m` this is exactly the Eigen block read
`modes_V.block(...).real()` of lines 840-842; out-of-range reads (which
are undefined behaviour in Eigen) return 0. -/
def ModeSet.reAt {nB nI m : Nat} (ms : ModeSet) (r : Fin nB ⊕ Fin nI) (c : Fin m) : ℚ :=
  let row : Nat := match r with
    | Sum.inl i => i.val
    | Sum.inr j => nB + j.val
  if h : row < ms.nrows ∧ c.val < ms.ncols then ms.V_re ⟨row, h.1⟩ ⟨c.val, h.2⟩ else 0

/-- Result of the Eigen `SparseQR` factorization of the bordered block
`K_IIc` (an external collaborator): a success flag (`solver.info()`)
and the solve operation used for the subsequent right-hand sides.
The source never reads the flag. -/
structure FactorResult (ι : Type) where
  success : Bool
  solve : (ι → ℚ) → (ι → ℚ)

/-- State of the assembly relevant to `DoModalReduction`: the localized
full matrices and mode data it reads, and the reduction outputs and
side-effect targets it writes. -/
structure ReductionState (nB nI dB dI m : Nat) where
  full_M_loc : Matrix (Fin nB ⊕ Fin nI) (Fin nB ⊕ Fin nI) ℚ
  full_K_loc : Matrix (Fin nB ⊕ Fin nI) (Fin nB ⊕ Fin nI) ℚ
  full_Cq_loc : Matrix (Fin dB ⊕ Fin dI) (Fin nB ⊕ Fin nI) ℚ
  modes : ModeSet
  /-- masses of the boundary bodies (`bodylist`), zeroed in lines 941-944 -/
  boundaryBodyMasses : List ℚ
  /-- lumped masses of the boundary FEA nodes, zeroed in lines 945-956 -/
  boundaryNodeMasses : List ℚ
  Psi_S : Matrix (Fin nI) (Fin nB) ℚ
  Psi_D : Matrix (Fin nI) (Fin m) ℚ
  Psi : Matrix (Fin nB ⊕ Fin nI) (Fin nB ⊕ Fin m) ℚ
  M_red : Matrix (Fin nB ⊕ Fin m) (Fin nB ⊕ Fin m) ℚ
  K_red : Matrix (Fin nB ⊕ Fin m) (Fin nB ⊕ Fin m) ℚ
  R_red : Matrix (Fin nB ⊕ Fin m) (Fin nB ⊕ Fin m) ℚ
  Cq_red : Matrix (Fin dB) (Fin nB ⊕ Fin m) ℚ

/-- `util_sparse_assembly_2x2symm` (lines 87-125): border the square
block `H` with the constraint rows `Cq`, producing
`[[H, Cqᵀ], [Cq, 0]]`. -/
def sparseAssembly2x2symm {n c : Nat} (H : Matrix (Fin n) (Fin n) ℚ)
    (Cq : Matrix (Fin c) (Fin n) ℚ) :
    Matrix (Fin n ⊕ Fin c) (Fin n ⊕ Fin c) ℚ :=
  Matrix.fromBlocks H Cqᵀ Cq 0

/-- `ChModalAssembly::DoModalReduction` (lines 829-972).

External collaborators appear as parameters: `factorize` is the Eigen
`SparseQR` (lines 865-867, `analyzePattern` + `factorize`), `computeR`
is the user damping model `damping_model.ComputeR(*this, M_red, K_red,
Psi, R_red)` of line 961, returning the matrix it writes into its output
argument.

Faithful to the source, the factorization's status is never inspected,
the damping model's output is overwritten by `R_red.setZero()`
("set zero for test temporarily", line 962), and the mode set is
invalidated by resizing to zero (lines 968-971; `modes_assembly_x0` is
kept, its clearing being commented out at line 967).  The per-column
right-hand sides of lines 870-883 and 898-911 are built uniformly; for
`dI = 0` the constraint part is the empty segment, which is exactly the
`if (n_internal_doc_w)` branch split of the source.  The local matrices
`Psi_S_C`, `Psi_S_LambdaI`, `Psi_D_C`, `Psi_D_LambdaI` are function
locals never stored in the assembly and are not modelled. -/
def doModalReduction {nB nI dB dI m : Nat}
    (factorize : Matrix (Fin nI ⊕ Fin dI) (Fin nI ⊕ Fin dI) ℚ → FactorResult (Fin nI ⊕ Fin dI))
    (computeR : Matrix (Fin nB ⊕ Fin m) (Fin nB ⊕ Fin m) ℚ →
      Matrix (Fin nB ⊕ Fin m) (Fin nB ⊕ Fin m) ℚ →
      Matrix (Fin nB ⊕ Fin nI) (Fin nB ⊕ Fin m) ℚ →
      Matrix (Fin nB ⊕ Fin m) (Fin nB ⊕ Fin m) ℚ)
    (s : ReductionState nB nI dB dI m) : ReductionState nB nI dB dI m :=
  -- lines 840-842: real parts of the boundary/internal mode-shape blocks
  let V_B : Matrix (Fin nB) (Fin m) ℚ := fun i j => @ModeSet.reAt nB nI m s.modes (Sum.inl i) j
  let V_I : Matrix (Fin nI) (Fin m) ℚ := fun i j => @ModeSet.reAt nB nI m s.modes (Sum.inr i) j
  -- lines 846-852: K_IIc = [[K_II, Cq_II'], [Cq_II, 0]]
  let K_II_loc := s.full_K_loc.toBlocks₂₂
  let Cq_II_loc := s.full_Cq_loc.toBlocks₂₂
  let K_IIc_loc := sparseAssembly2x2symm K_II_loc Cq_II_loc
  -- lines 865-867: factor K_IIc once; the status is never checked
  let fact := factorize K_IIc_loc
  -- lines 858-883: static modes, one solve per boundary coordinate
  let Cq_IB_loc := s.full_Cq_loc.toBlocks₂₁
  let K_IB_loc := s.full_K_loc.toBlocks₂₁
  let Psi_S : Matrix (Fin nI) (Fin nB) ℚ := fun r i =>
    -(fact.solve (fun rc =>
        match rc with
        | Sum.inl a => K_IB_loc a i
        | Sum.inr b => Cq_IB_loc b i)) (Sum.inl r)
  -- lines 889-911: dynamic modes, one solve per retained mode
  let M_II_loc := s.full_M_loc.toBlocks₂₂
  let M_IB_loc := s.full_M_loc.toBlocks₂₁
  let rhs_top := M_IB_loc * V_B + M_II_loc * V_I
  let Psi_D : Matrix (Fin nI) (Fin m) ℚ := fun r j =>
    -(fact.solve (fun rc =>
        match rc with
        | Sum.inl a => rhs_top a j
        | Sum.inr _ => 0)) (Sum.inl r)
  -- lines 913-920: Psi = [[I, 0], [Psi_S, Psi_D]]
  let Psi := Matrix.fromBlocks (1 : Matrix (Fin nB) (Fin nB) ℚ) 0 Psi_S Psi_D
  -- lines 928-933: projections
  let M_red := Psiᵀ * s.full_M_loc * Psi
  let K_red := Psiᵀ * s.full_K_loc * Psi
  let Cq_B_loc : Matrix (Fin dB) (Fin nB ⊕ Fin nI) ℚ := fun d c => s.full_Cq_loc (Sum.inl d) c
  let Cq_red := Cq_B_loc * Psi
  -- line 961: damping model collaborator fills R_red ...
  let R_from_damping_model := computeR M_red K_red Psi
  -- line 962: ... and is immediately discarded: "R_red.setZero(); // set zero for test temporarily"
  let _ := R_from_damping_model
  { s with
    Psi_S := Psi_S
    Psi_D := Psi_D
    Psi := Psi
    M_red := M_red
    K_red := K_red
    Cq_red := Cq_red
    R_red := 0
    -- lines 941-956: atomic masses of boundary bodies and nodes reset to zero
    boundaryBodyMasses := s.boundaryBodyMasses.map (fun _ => 0)
    boundaryNodeMasses := s.boundaryNodeMasses.map (fun _ => 0)
    -- lines 964-971: invalidate the initial eigenvalue analysis
    modes := ModeSet.empty }

end ModalReduction

section AssemblySetup

/-!
**Section:** `ChModalAssembly::Setup` (lines 1852-1996)

Counters are `Int`, matching the C++ `int` members.  The parent call
`ChAssembly::Setup()` (an external collaborator: it counts the boundary
items only) has already run; its resulting counters are the inputs of
this step, exactly as the source snapshots them into the
`n_boundary_*` members in lines 1855-1867.
-/

/-- An internal rigid body as seen by `Setup`: its DOF/constraint counts
and the `GetBodyFixed`/`GetSleeping` flags of lines 1884-1887. -/
structure SetupBody where
  dof : Int
  dof_w : Int
  doc : Int
  fixed : Bool
  sleeping : Bool

/-- An internal link as seen by `Setup`: counts and the `IsActive` flag
of line 1904. -/
structure SetupLink where
  dof : Int
  dof_w : Int
  doc : Int
  doc_c : Int
  doc_d : Int
  active : Bool

/-- An internal mesh or other physics item as seen by `Setup`
(processed unconditionally, lines 1921-1951). -/
structure SetupMesh where
  dof : Int
  dof_w : Int
  doc : Int
  doc_c : Int
  doc_d : Int

/-- Inputs of `ChModalAssembly::Setup`: the assembly's own offsets, the
counters just produced by the parent `ChAssembly::Setup()` (which are
snapshotted as the boundary counters), the internal item lists, and the
modal-mode data. -/
structure SetupInputs where
  offset_x : Int
  offset_w : Int
  offset_L : Int
  par_nbodies : Int
  par_nlinks : Int
  par_nmeshes : Int
  par_nphysicsitems : Int
  par_ncoords : Int
  par_ncoords_w : Int
  par_ndoc : Int
  par_ndoc_w : Int
  par_ndoc_w_C : Int
  par_ndoc_w_D : Int
  par_nsysvars : Int
  par_nsysvars_w : Int
  par_ndof : Int
  internal_bodylist : List SetupBody
  internal_linklist : List SetupLink
  internal_meshlist : List SetupMesh
  internal_otherphysicslist : List SetupMesh
  is_modal : Bool
  n_modes_coords_w : Int

/-- Running accumulator of the internal-item loops: item count, coordinate
and constraint counters, and the `(offset_x, offset_w, offset_L)`
triples assigned to the processed items, in list order. -/
structure SetupAcc where
  count : Int
  coords : Int
  coords_w : Int
  doc_w : Int
  doc_w_C : Int
  doc_w_D : Int
  offsets : List (Int × Int × Int)

/-- The empty accumulator. -/
def SetupAcc.init : SetupAcc := ⟨0, 0, 0, 0, 0, 0, []⟩

/-- Result of `ChModalAssembly::Setup`: the boundary snapshot, the
internal counters, the assigned internal offsets, and the whole-assembly
totals of lines 1969-1995. -/
structure SetupResult where
  n_boundary_coords : Int
  n_boundary_coords_w : Int
  n_boundary_doc : Int
  n_boundary_doc_w : Int
  n_boundary_doc_w_C : Int
  n_boundary_doc_w_D : Int
  n_boundary_sysvars : Int
  n_boundary_sysvars_w : Int
  n_boundary_dof : Int
  n_internal_bodies : Int
  n_internal_links : Int
  n_internal_meshes : Int
  n_internal_physicsitems : Int
  n_internal_coords : Int
  n_internal_coords_w : Int
  n_internal_doc : Int
  n_internal_doc_w : Int
  n_internal_doc_w_C : Int
  n_internal_doc_w_D : Int
  n_internal_sysvars : Int
  n_internal_sysvars_w : Int
  n_internal_dof : Int
  bodyOffsets : List (Int × Int × Int)
  linkOffsets : List (Int × Int × Int)
  meshOffsets : List (Int × Int × Int)
  otherOffsets : List (Int × Int × Int)
  ncoords : Int
  ncoords_w : Int
  ndoc : Int
  ndoc_w : Int
  ndoc_w_C : Int
  ndoc_w_D : Int
  nsysvars : Int
  nsysvars_w : Int
  ndof : Int
  nbodies : Int
  nlinks : Int
  nmeshes : Int
  nphysicsitems : Int
  n_modes_coords_w : Int
  is_modal : Bool
  custom_F_full_size : Int
  custom_F_modal_size : Int

/-- The internal-body loop of lines 1883-1901: fixed or sleeping bodies
are skipped (the `throw` statements are commented out in the source);
every other body receives offsets past the boundary block and the
already-processed internal items, then contributes `GetDOF`, `GetDOF_w`
and `GetDOC` to the counters. -/
def setupBodyStep (inp : SetupInputs) (acc : SetupAcc) (b : SetupBody) : SetupAcc :=
  if b.fixed then acc
  else if b.sleeping then acc
  else
    { count := acc.count + 1
      coords := acc.coords + b.dof
      coords_w := acc.coords_w + b.dof_w
      doc_w := acc.doc_w + b.doc
      doc_w_C := acc.doc_w_C
      doc_w_D := acc.doc_w_D
      offsets := acc.offsets ++
        [(inp.offset_x + inp.par_ncoords + acc.coords,
          inp.offset_w + inp.par_ncoords_w + acc.coords_w,
          inp.offset_L + inp.par_ndoc_w + acc.doc_w)] }

/-- The internal-link loop of lines 1903-1919: inactive links are
skipped; active ones receive offsets and contribute all five counters. -/
def setupLinkStep (inp : SetupInputs) (acc : SetupAcc) (l : SetupLink) : SetupAcc :=
  if l.active then
    { count := acc.count + 1
      coords := acc.coords + l.dof
      coords_w := acc.coords_w + l.dof_w
      doc_w := acc.doc_w + l.doc
      doc_w_C := acc.doc_w_C + l.doc_c
      doc_w_D := acc.doc_w_D + l.doc_d
      offsets := acc.offsets ++
        [(inp.offset_x + inp.par_ncoords + acc.coords,
          inp.offset_w + inp.par_ncoords_w + acc.coords_w,
          inp.offset_L + inp.par_ndoc_w + acc.doc_w)] }
  else acc

/-- The internal-mesh and other-physics-item loops of lines 1921-1951:
every item is processed. -/
def setupMeshStep (inp : SetupInputs) (acc : SetupAcc) (x : SetupMesh) : SetupAcc :=
  { count := acc.count + 1
    coords := acc.coords + x.dof
    coords_w := acc.coords_w + x.dof_w
    doc_w := acc.doc_w + x.doc
    doc_w_C := acc.doc_w_C + x.doc_c
    doc_w_D := acc.doc_w_D + x.doc_d
    offsets := acc.offsets ++
      [(inp.offset_x + inp.par_ncoords + acc.coords,
        inp.offset_w + inp.par_ncoords_w + acc.coords_w,
        inp.offset_L + inp.par_ndoc_w + acc.doc_w)] }

/-- `ChModalAssembly::Setup` (lines 1852-1996).  The boundary counters
are the parent's results (lines 1855-1867); the internal loops run
unconditionally (they do not consult `is_modal`); the whole-assembly
totals are set by the `is_modal` branch of lines 1969-1995. -/
def chSetup (inp : SetupInputs) : SetupResult :=
  let accB := inp.internal_bodylist.foldl (setupBodyStep inp) SetupAcc.init
  let accL := inp.internal_linklist.foldl (setupLinkStep inp)
    { accB with count := 0, offsets := [] }
  let accM := inp.internal_meshlist.foldl (setupMeshStep inp)
    { accL with count := 0, offsets := [] }
  let accO := inp.internal_otherphysicslist.foldl (setupMeshStep inp)
    { accM with count := 0, offsets := [] }
  let n_internal_bodies := accB.count
  let n_internal_coords := accO.coords
  let n_internal_coords_w := accO.coords_w
  let n_internal_doc_w := accO.doc_w
  let n_internal_doc_w_C := accO.doc_w_C
  let n_internal_doc_w_D := accO.doc_w_D
  -- line 1953: number of constraints including quaternion constraints
  let n_internal_doc := n_internal_doc_w + n_internal_bodies
  let n_internal_sysvars := n_internal_coords + n_internal_doc
  let n_internal_sysvars_w := n_internal_coords_w + n_internal_doc_w
  let n_internal_dof := n_internal_coords_w - n_internal_doc_w
  let n_boundary_sysvars := inp.par_nsysvars
  let n_boundary_sysvars_w := inp.par_nsysvars_w
  let base : SetupResult :=
    { n_boundary_coords := inp.par_ncoords
      n_boundary_coords_w := inp.par_ncoords_w
      n_boundary_doc := inp.par_ndoc
      n_boundary_doc_w := inp.par_ndoc_w
      n_boundary_doc_w_C := inp.par_ndoc_w_C
      n_boundary_doc_w_D := inp.par_ndoc_w_D
      n_boundary_sysvars := n_boundary_sysvars
      n_boundary_sysvars_w := n_boundary_sysvars_w
      n_boundary_dof := inp.par_ndof
      n_internal_bodies := n_internal_bodies
      n_internal_links := accL.count
      n_internal_meshes := accM.count
      n_internal_physicsitems := accO.count
      n_internal_coords := n_internal_coords
      n_internal_coords_w := n_internal_coords_w
      n_internal_doc := n_internal_doc
      n_internal_doc_w := n_internal_doc_w
      n_internal_doc_w_C := n_internal_doc_w_C
      n_internal_doc_w_D := n_internal_doc_w_D
      n_internal_sysvars := n_internal_sysvars
      n_internal_sysvars_w := n_internal_sysvars_w
      n_internal_dof := n_internal_dof
      bodyOffsets := accB.offsets
      linkOffsets := accL.offsets
      meshOffsets := accM.offsets
      otherOffsets := accO.offsets
      ncoords := 0
      ncoords_w := 0
      ndoc := 0
      ndoc_w := 0
      ndoc_w_C := 0
      ndoc_w_D := 0
      nsysvars := 0
      nsysvars_w := 0
      ndof := 0
      nbodies := inp.par_nbodies
      nlinks := inp.par_nlinks
      nmeshes := inp.par_nmeshes
      nphysicsitems := inp.par_nphysicsitems
      n_modes_coords_w := inp.n_modes_coords_w
      is_modal := inp.is_modal
      -- line 1959: custom_F_full.setZero(n_boundary_coords_w + n_internal_coords_w)
      custom_F_full_size := inp.par_ncoords_w + n_internal_coords_w
      custom_F_modal_size := 0 }
  if inp.is_modal = false then
    -- lines 1969-1982: full mode, totals include the internal items
    { base with
      ncoords := inp.par_ncoords + n_internal_coords
      ncoords_w := inp.par_ncoords_w + n_internal_coords_w
      ndoc := inp.par_ndoc + n_internal_doc
      ndoc_w := inp.par_ndoc_w + n_internal_doc_w
      ndoc_w_C := inp.par_ndoc_w_C + n_internal_doc_w_C
      ndoc_w_D := inp.par_ndoc_w_D + n_internal_doc_w_D
      nsysvars := n_boundary_sysvars + n_internal_sysvars
      nsysvars_w := n_boundary_sysvars_w + n_internal_sysvars_w
      ndof := inp.par_ndof + n_internal_dof
      nbodies := inp.par_nbodies + n_internal_bodies
      nlinks := inp.par_nlinks + accL.count
      nmeshes := inp.par_nmeshes + accM.count
      nphysicsitems := inp.par_nphysicsitems + accO.count }
  else
    -- lines 1983-1995: modal mode, totals count boundary plus modal coordinates
    { base with
      ncoords := inp.par_ncoords + inp.n_modes_coords_w
      ncoords_w := inp.par_ncoords_w + inp.n_modes_coords_w
      ndoc := inp.par_ndoc
      ndoc_w := inp.par_ndoc_w
      ndoc_w_C := inp.par_ndoc_w_C
      ndoc_w_D := inp.par_ndoc_w_D
      nsysvars := n_boundary_sysvars + inp.n_modes_coords_w
      nsysvars_w := n_boundary_sysvars_w + inp.n_modes_coords_w
      ndof := inp.par_ndof + inp.n_modes_coords_w
      -- line 1994: custom_F_modal.setZero(n_boundary_coords_w + n_modes_coords_w)
      custom_F_modal_size := inp.par_ncoords_w + inp.n_modes_coords_w }

end AssemblySetup

section ComputeModes

/-!
**Section:** `ChModalAssembly::ComputeModesExternalData` (lines 1229-1273)

The eigensolver `ChModalSolveUndamped::Solve` is an external
collaborator; the requested mode count travels inside the
`n_modes_settings` object and is embedded here as an explicit `Nat`.
`SetupInitial`, `Setup`, `Update` and the `IntStateGather` state
snapshot touch only the bookkeeping/sub-item part of the assembly,
embedded as an opaque component `γ` with the corresponding operations
as parameters (the real `Setup` writes counters and offsets only —
see `chSetup` — and never the mode-set members).
-/

/-- Output of the external undamped eigensolver
(`n_modes_settings.Solve(full_M, full_K, full_Cq, modes_V, modes_eig,
modes_freq)`): the mode shapes and spectra it writes into its output
arguments. -/
structure EigOutput where
  nrows : Nat
  ncols : Nat
  V_re : Matrix (Fin nrows) (Fin ncols) ℚ
  V_im : Matrix (Fin nrows) (Fin ncols) ℚ
  neig : Nat
  eig_re : Fin neig → ℚ
  eig_im : Fin neig → ℚ
  nfreq : Nat
  freq : Fin nfreq → ℚ

/-- Assembly state as seen by `ComputeModesExternalData`: the
bookkeeping/sub-item component `γ` (counters, offsets, item states),
the mode set, and the `modes_assembly_x0` snapshot. -/
structure ModesCompState (γ : Type) where
  counters : γ
  modes : ModeSet
  modes_assembly_x0 : List ℚ

/-- The parent/bookkeeping operations invoked by
`ComputeModesExternalData`: `SetupInitial()`, `Setup()`, `Update()`
(sub-item protocol, external) and the `IntStateGather` snapshot. -/
structure ModesCompOps (γ : Type) where
  setupInitial : γ → γ
  setup : γ → γ
  update : γ → γ
  gatherX : γ → List ℚ

/-- `ChModalAssembly::ComputeModesExternalData` (lines 1229-1273):
run the setup/update sequence, snapshot `modes_assembly_x0`, call the
external eigensolver with the caller's matrices and the requested mode
count exactly as given (the clamp of the request to the coordinate
count, line 1246, is commented out in the source, and no validation
replaces it), store its output, zero `modes_damping_ratio` at the size
of `modes_freq`, and return `true` unconditionally.  The debug
`assert`s of lines 1250-1252 compare matrix dimensions only and are
compiled out in release builds.  `μ` is the sparse-matrix type of the
borrowed `full_M`, `full_K`, `full_Cq` arguments, which are passed
through to the solver unread. -/
def computeModesExternalData {γ μ : Type} (ops : ModesCompOps γ)
    (solveEig : μ → μ → μ → Nat → EigOutput)
    (full_M full_K full_Cq : μ) (requested : Nat)
    (s : ModesCompState γ) : ModesCompState γ × Bool :=
  -- lines 1234-1236: SetupInitial(); Setup(); Update()
  let c1 := ops.update (ops.setup (ops.setupInitial s.counters))
  -- lines 1239-1243: fetch the state snapshot for this analysis
  let x0 := ops.gatherX c1
  -- line 1248: Setup()
  let c2 := ops.setup c1
  -- line 1261: SOLVE EIGENVALUE via the external solver, request forwarded unchanged
  let r := solveEig full_M full_K full_Cq requested
  -- line 1266: modes_damping_ratio.setZero(modes_freq.rows())
  let newModes : ModeSet :=
    { nrows := r.nrows, ncols := r.ncols, V_re := r.V_re, V_im := r.V_im
      neig := r.neig, eig_re := r.eig_re, eig_im := r.eig_im
      nfreq := r.nfreq, freq := r.freq
      ndamp := r.nfreq, damp := fun _ => 0 }
  -- line 1268: Setup()
  let c3 := ops.setup c2
  ({ counters := c3, modes := newModes, modes_assembly_x0 := x0 }, true)

end ComputeModes

section SwitchOn

/-!
**Section:** `ChModalAssembly::SwitchModalReductionON` (lines 276-405)

The two overloads.  The body of the 5-argument overload is the call
sequence of lines 285-385 over the whole C++ object (assembly counters,
sub-item states, frame, matrices); each step is a named operation over
an abstract state `σ`, the guard `if (is_modal) return;` is the part
embedded concretely.  Detailed embeddings of the individual steps
(`chSetup`, `computeLocalFullKRMmatrix`, `computeModesExternalData`,
`doModalReduction`, the KRM sweep) are given separately on their own
focused state types.
-/

/-- The steps invoked by `SwitchModalReductionON`, in source order, as
operations over the whole assembly state `σ`, plus the `is_modal`
observer guarding both overloads. -/
structure SwitchOps (σ : Type) where
  isModal : σ → Bool
  setupInitial : σ → σ
  setup : σ → σ
  update : σ → σ
  /-- lines 316-320: `full_assembly_x_old` snapshot via `IntStateGather` -/
  gatherOldFullState : σ → σ
  computeMassCenter : σ → σ
  /-- `CpmputeSelectionMatrix` (sic), line 324 -/
  computeSelectionMatrix : σ → σ
  updateFloatingFrameOfReference : σ → σ
  /-- line 329: `floating_frame_F0 = floating_frame_F` -/
  storeInitialFrameF0 : σ → σ
  computeLocalFullKRM : σ → σ
  computeModesExternal : σ → σ
  /-- line 337: `SetModalMode(true)` -/
  setModalModeTrue : σ → σ
  /-- line 338: `SetupModalData(modes_V.cols())` -/
  setupModalData : σ → σ
  updateTransformationMatrix : σ → σ
  doReduction : σ → σ
  computeInertialKRM : σ → σ
  computeStiffness : σ → σ
  computeDamping : σ → σ
  computeModalKRM : σ → σ
  /-- lines 356-385: debug dump of Psi and the modal/reduced matrices -/
  dumpDebugFiles : σ → σ
  /-- lines 394-400 of the no-matrix overload:
  `GetSubassemblyMassMatrix` / `StiffnessMatrix` /
  `ConstraintJacobianMatrix` (each re-runs `SetupInitial`, `Setup`,
  `Update` and assembles one matrix) -/
  getSubassemblyMatrices : σ → σ

/-- `SwitchModalReductionON(full_M, full_K, full_Cq, n_modes_settings,
damping_model)` (lines 276-386): return unchanged if already modal
(lines 281-282), otherwise run the reduction sequence in source order. -/
def switchModalReductionFull {σ : Type} (ops : SwitchOps σ) (s : σ) : σ :=
  if ops.isModal s then s
  else
    let s1 := ops.update (ops.setup (ops.setupInitial s))
    let s2 := ops.gatherOldFullState s1
    let s3 := ops.computeMassCenter s2
    let s4 := ops.computeSelectionMatrix s3
    let s5 := ops.updateFloatingFrameOfReference s4
    let s6 := ops.storeInitialFrameF0 s5
    let s7 := ops.computeLocalFullKRM s6
    let s8 := ops.computeModesExternal s7
    let s9 := ops.setupModalData (ops.setModalModeTrue s8)
    let s10 := ops.updateTransformationMatrix s9
    let s11 := ops.doReduction s10
    let s12 := ops.computeModalKRM (ops.computeDamping (ops.computeStiffness (ops.computeInertialKRM s11)))
    ops.dumpDebugFiles s12

/-- `SwitchModalReductionON(n_modes_settings, damping_model)`
(lines 388-405): return unchanged if already modal (lines 390-391),
otherwise assemble the subassembly matrices and delegate to the
5-argument overload. -/
def switchModalReductionAuto {σ : Type} (ops : SwitchOps σ) (s : σ) : σ :=
  if ops.isModal s then s
  else switchModalReductionFull ops (ops.getSubassemblyMatrices s)

end SwitchOn

section InternalStateWithModes

/-!
**Section:** `ChModalAssembly::SetInternalStateWithModes` (lines 1365-1482)

Index types are abstract: `xB`/`xI` index the position-level boundary /
internal coordinates (`n_boundary_coords` / `n_internal_coords`,
including quaternion components), `wB`/`wI` the velocity-level ones,
`μ` the modal coordinates.  The quaternion-aware per-item state
arithmetic of the sub-item protocol (parent `IntStateGetIncrement` on
the boundary items, `IntStateIncrement` in temporarily-full mode) is
external and enters as the two operation parameters.
-/

/-- The transformation/reduction matrices read by
`SetInternalStateWithModes`.  They exist (with matching sizes) exactly
when the reduction has produced `Psi`; the dimension guard of
line 1374 (`Psi.rows() != bou_int_coords_w || Psi.cols() !=
bou_mod_coords_w`) is embedded as the presence of this bundle. -/
structure ReducedBasis (wB wI μ : Type) where
  Psi_S : Matrix wI wB ℚ
  Psi_D : Matrix wI μ ℚ
  P_B2 : Matrix wB wB ℚ
  P_I2 : Matrix wI wI ℚ

/-- Assembly state as seen by `SetInternalStateWithModes`: the mode
flag, the reduction basis (when sized), the stored old full state, the
boundary-item state and modal coordinates that `IntStateGather`
collects, and the state stored in the internal sub-items (the target of
the final scatter loop, lines 1450-1475). -/
structure InternalStateData (xB xI wB wI μ : Type) where
  is_modal : Bool
  basis : Option (ReducedBasis wB wI μ)
  full_assembly_x_old : xB ⊕ xI → ℚ
  /-- boundary positions collected by the parent part of `IntStateGather` -/
  bx : xB → ℚ
  /-- boundary velocities collected by the parent part of `IntStateGather` -/
  bv : wB → ℚ
  modal_q : μ → ℚ
  modal_q_dt : μ → ℚ
  /-- position-level state currently stored in the internal sub-items -/
  internalItemsX : xI → ℚ
  /-- velocity-level state currently stored in the internal sub-items -/
  internalItemsV : wI → ℚ

/-- External sub-item state arithmetic used by
`SetInternalStateWithModes`: `getIncrementB` is the boundary part of
`IntStateGetIncrement` (per-item, quaternion-aware difference of two
position states), `incrementFull` is `IntStateIncrement` applied with
the mode flag temporarily false (lines 1442-1448), producing the new
full position state from the old one and a velocity-level increment. -/
structure StateMapOps (xB xI wB wI : Type) where
  getIncrementB : (xB → ℚ) → (xB → ℚ) → (wB → ℚ)
  incrementFull : (xB ⊕ xI → ℚ) → (wB ⊕ wI → ℚ) → (xB ⊕ xI → ℚ)

/-- `ChModalAssembly::SetInternalStateWithModes` (lines 1365-1482).

Early-outs: not in modal mode (line 1366), or `Psi` not sized
(line 1374, embedded as `basis = none`).  Otherwise: gather the reduced
state `x_mod = [qB; eta]`, `v_mod` (lines 1377-1382); build the old
snapshot `x0_mod = [qB_old; 0]` (lines 1385-1387); form the reduced
increment `assembly_Dx_reduced = [delta_qB; delta_eta]` via
`IntStateGetIncrement` — parent items on the boundary block, plain
difference on the modal block (lines 1389-1391 with 2350-2354); expand
to the full increment with internal part
`P_I2 * Psi_S * P_B2ᵀ * delta_qB + P_I2 * Psi_D * delta_eta`
(lines 1405-1410) and the full velocity with internal part
`P_I2 * Psi_S * P_B2ᵀ * qB_dt + P_I2 * Psi_D * eta_dt`
(lines 1412-1417); advance the stored old state by the increment in
temporarily-full mode (lines 1442-1448); scatter the new state into the
internal sub-items only (lines 1450-1475); restore the mode flag and
store `full_assembly_x_old = assembly_x_new` (line 1481).  The
rigid-body-mode consistency check of lines 1419-1440 only logs a norm
and mutates nothing; it is not modelled. -/
def setInternalStateWithModes {xB xI wB wI μ : Type}
    [Fintype wB] [Fintype wI] [Fintype μ]
    (ops : StateMapOps xB xI wB wI)
    (s : InternalStateData xB xI wB wI μ) : InternalStateData xB xI wB wI μ :=
  if s.is_modal = false then s
  else
    match s.basis with
    | none => s
    | some b =>
      let x_mod : xB ⊕ μ → ℚ := Sum.elim s.bx s.modal_q
      let v_mod : wB ⊕ μ → ℚ := Sum.elim s.bv s.modal_q_dt
      let x0_mod : xB ⊕ μ → ℚ :=
        Sum.elim (fun p => s.full_assembly_x_old (Sum.inl p)) (fun _ => 0)
      let assembly_Dx_reduced : wB ⊕ μ → ℚ :=
        Sum.elim
          (ops.getIncrementB (fun q => x_mod (Sum.inl q)) (fun q => x0_mod (Sum.inl q)))
          (fun j => x_mod (Sum.inr j) - x0_mod (Sum.inr j))
      let Dx_b : wB → ℚ := fun p => assembly_Dx_reduced (Sum.inl p)
      let Dx_eta : μ → ℚ := fun j => assembly_Dx_reduced (Sum.inr j)
      let assembly_Dx : wB ⊕ wI → ℚ :=
        Sum.elim Dx_b
          (fun q =>
            (b.P_I2 * b.Psi_S * b.P_B2ᵀ).mulVec Dx_b q + (b.P_I2 * b.Psi_D).mulVec Dx_eta q)
      let assembly_v : wB ⊕ wI → ℚ :=
        Sum.elim (fun p => v_mod (Sum.inl p))
          (fun q =>
            (b.P_I2 * b.Psi_S * b.P_B2ᵀ).mulVec (fun p => v_mod (Sum.inl p)) q +
              (b.P_I2 * b.Psi_D).mulVec (fun j => v_mod (Sum.inr j)) q)
      let assembly_x_new := ops.incrementFull s.full_assembly_x_old assembly_Dx
      { s with
        internalItemsX := fun i => assembly_x_new (Sum.inr i)
        internalItemsV := fun i => assembly_v (Sum.inr i)
        full_assembly_x_old := assembly_x_new }

end InternalStateWithModes

section KRMSweep

/-!
**Section:** The per-step tangent-operator build (lines 974-1125 and 2693-2717)

`ComputeInertialKRMmatrix`, `ComputeStiffnessMatrix`,
`ComputeDampingMatrix`, `ComputeModalKRMmatrix`, and the modal branch
of `KRMmatricesLoad` that drives them.

Dimensions: `nb` boundary nodes (`n_boundary_coords_w = 6*nb`), `m`
retained modes, `dB` boundary constraint rows.  Reduced velocity-level
coordinates are indexed by `(Fin nb × C6) ⊕ Fin m`; the extended-frame
coordinates (`6 + m` columns of `V`, rows of `U`) by `C6 ⊕ Fin m`.
The maps `Q_to_Rotv` and `ChMatrix33(quaternion)` (chrono/core,
outside the embedded translation unit) enter as parameters.
-/

/-- The part of the assembly state the KRM sweep only reads: the
gathered sub-item state and modal coordinates, the floating-frame data,
the initial snapshot, and the reduction results. -/
@[ext] structure KRMInputs (nb m dB : Nat) where
  /-- boundary positions (position ⊕ quaternion per node) collected by
  the parent part of `IntStateGather` -/
  bx : Fin nb × C7 → ℚ
  /-- boundary velocities collected by `IntStateGather` -/
  bv : Fin nb × C6 → ℚ
  /-- boundary accelerations collected by `IntStateGatherAcceleration` -/
  ba : Fin nb × C6 → ℚ
  modal_q : Fin m → ℚ
  modal_q_dt : Fin m → ℚ
  modal_q_dtdt : Fin m → ℚ
  R_F : Matrix (Fin 3) (Fin 3) ℚ
  wloc_F : Fin 3 → ℚ
  F_pos : Fin 3 → ℚ
  /-- `floating_frame_F.GetRot().Q_to_Rotv()` -/
  F_rotv : Fin 3 → ℚ
  F0_pos : Fin 3 → ℚ
  /-- `floating_frame_F0.GetA()` -/
  F0_A : Matrix (Fin 3) (Fin 3) ℚ
  /-- boundary section of the `modes_assembly_x0` snapshot -/
  x0b : Fin nb × C7 → ℚ
  M_red : Matrix ((Fin nb × C6) ⊕ Fin m) ((Fin nb × C6) ⊕ Fin m) ℚ
  K_red : Matrix ((Fin nb × C6) ⊕ Fin m) ((Fin nb × C6) ⊕ Fin m) ℚ
  R_red : Matrix ((Fin nb × C6) ⊕ Fin m) ((Fin nb × C6) ⊕ Fin m) ℚ
  Cq_red : Matrix (Fin dB) ((Fin nb × C6) ⊕ Fin m) ℚ
  P_W : Matrix ((Fin nb × C6) ⊕ Fin m) ((Fin nb × C6) ⊕ Fin m) ℚ
  Y : Matrix ((Fin nb × C6) ⊕ Fin m) ((Fin nb × C6) ⊕ Fin m) ℚ
  U : Matrix (C6 ⊕ Fin m) ((Fin nb × C6) ⊕ Fin m) ℚ
  S : Matrix C6 (Fin nb × C6) ℚ

/-- Assembly state as seen by the KRM sweep: the read-only `inputs`
(the C++ object holds these as flat members; they are grouped here as a
sub-record because the sweep never writes them), and the cached
matrices (`V` through `modal_Hblock_K`) the sweep writes. -/
@[ext] structure KRMState (nb m dB : Nat) where
  inputs : KRMInputs nb m dB
  V : Matrix ((Fin nb × C6) ⊕ Fin m) (C6 ⊕ Fin m) ℚ
  V_acc : Matrix ((Fin nb × C6) ⊕ Fin m) (C6 ⊕ Fin m) ℚ
  V_rmom : Matrix ((Fin nb × C6) ⊕ Fin m) (C6 ⊕ Fin m) ℚ
  V_F1 : Matrix ((Fin nb × C6) ⊕ Fin m) (C6 ⊕ Fin m) ℚ
  V_F2 : Matrix ((Fin nb × C6) ⊕ Fin m) (C6 ⊕ Fin m) ℚ
  V_F3 : Matrix ((Fin nb × C6) ⊕ Fin m) (C6 ⊕ Fin m) ℚ
  O_B : Matrix ((Fin nb × C6) ⊕ Fin m) ((Fin nb × C6) ⊕ Fin m) ℚ
  O_F : Matrix ((Fin nb × C6) ⊕ Fin m) ((Fin nb × C6) ⊕ Fin m) ℚ
  O_thetamom : Matrix ((Fin nb × C6) ⊕ Fin m) ((Fin nb × C6) ⊕ Fin m) ℚ
  M_sup : Matrix ((Fin nb × C6) ⊕ Fin m) ((Fin nb × C6) ⊕ Fin m) ℚ
  Ri_sup : Matrix ((Fin nb × C6) ⊕ Fin m) ((Fin nb × C6) ⊕ Fin m) ℚ
  Ki_sup : Matrix ((Fin nb × C6) ⊕ Fin m) ((Fin nb × C6) ⊕ Fin m) ℚ
  Km_sup : Matrix ((Fin nb × C6) ⊕ Fin m) ((Fin nb × C6) ⊕ Fin m) ℚ
  Kg_sup : Matrix ((Fin nb × C6) ⊕ Fin m) ((Fin nb × C6) ⊕ Fin m) ℚ
  Rm_sup : Matrix ((Fin nb × C6) ⊕ Fin m) ((Fin nb × C6) ⊕ Fin m) ℚ
  g_quad : ((Fin nb × C6) ⊕ Fin m) → ℚ
  g_loc : ((Fin nb × C6) ⊕ Fin m) → ℚ
  modal_M : Matrix ((Fin nb × C6) ⊕ Fin m) ((Fin nb × C6) ⊕ Fin m) ℚ
  modal_K : Matrix ((Fin nb × C6) ⊕ Fin m) ((Fin nb × C6) ⊕ Fin m) ℚ
  modal_R : Matrix ((Fin nb × C6) ⊕ Fin m) ((Fin nb × C6) ⊕ Fin m) ℚ
  modal_Cq : Matrix (Fin dB) ((Fin nb × C6) ⊕ Fin m) ℚ
  /-- `modal_Hblock.Get_K()`, the block handed to the system descriptor -/
  modal_Hblock_K : Matrix ((Fin nb × C6) ⊕ Fin m) ((Fin nb × C6) ⊕ Fin m) ℚ

/-- The gathered reduced velocity `v_mod = [qB_dt; eta_dt]` of
lines 979-983 (boundary part from the sub-items, modal part
`modal_q_dt`, lines 2122-2123). -/
def krmVmod {nb m dB : Nat} (s : KRMInputs nb m dB) : ((Fin nb × C6) ⊕ Fin m) → ℚ := fun i =>
  match i with
  | Sum.inl p => s.bv p
  | Sum.inr j => s.modal_q_dt j

/-- The gathered reduced acceleration `a_mod` of lines 985-987
(modal part `modal_q_dtdt`, line 2203). -/
def krmAmod {nb m dB : Nat} (s : KRMInputs nb m dB) : ((Fin nb × C6) ⊕ Fin m) → ℚ := fun i =>
  match i with
  | Sum.inl p => s.ba p
  | Sum.inr j => s.modal_q_dtdt j

/-- `V` of lines 990-994: per boundary node `i`, the block
`V.block(6i, 3, 3, 3) = star(R_Fᵀ * v_mod.segment(6i, 3))`; zero
elsewhere. -/
def krmMatV {nb m dB : Nat} (s : KRMInputs nb m dB) :
    Matrix ((Fin nb × C6) ⊕ Fin m) (C6 ⊕ Fin m) ℚ := fun r c =>
  match r, c with
  | Sum.inl (i, Sum.inl tr), Sum.inl (Sum.inr tc) =>
    star3 (s.R_Fᵀ.mulVec (fun t => krmVmod s (Sum.inl (i, Sum.inl t)))) tr tc
  | _, _ => 0

/-- `O_B` of line 995: per-node rotational diagonal block
`star(v_mod.segment(6i+3, 3))`. -/
def krmOB {nb m dB : Nat} (s : KRMInputs nb m dB) :
    Matrix ((Fin nb × C6) ⊕ Fin m) ((Fin nb × C6) ⊕ Fin m) ℚ := fun r c =>
  match r, c with
  | Sum.inl (i, Sum.inr tr), Sum.inl (j, Sum.inr tc) =>
    if i = j then star3 (fun t => krmVmod s (Sum.inl (i, Sum.inr t))) tr tc else 0
  | _, _ => 0

/-- `O_F` of line 996: per-node translational diagonal block
`star(wloc_F)`. -/
def krmOF {nb m dB : Nat} (s : KRMInputs nb m dB) :
    Matrix ((Fin nb × C6) ⊕ Fin m) ((Fin nb × C6) ⊕ Fin m) ℚ := fun r c =>
  match r, c with
  | Sum.inl (i, Sum.inl tr), Sum.inl (j, Sum.inl tc) =>
    if i = j then star3 s.wloc_F tr tc else 0
  | _, _ => 0

/-- `momen = M_red * (P_Wᵀ * v_mod)` of line 1006. -/
def krmMomen {nb m dB : Nat} (s : KRMInputs nb m dB) : ((Fin nb × C6) ⊕ Fin m) → ℚ :=
  s.M_red.mulVec (s.P_Wᵀ.mulVec (krmVmod s))

/-- `centr = M_red * (P_Wᵀ * a_mod)` of line 1007. -/
def krmCentr {nb m dB : Nat} (s : KRMInputs nb m dB) : ((Fin nb × C6) ⊕ Fin m) → ℚ :=
  s.M_red.mulVec (s.P_Wᵀ.mulVec (krmAmod s))

/-- `momen_F = O_F * momen` of line 1008. -/
def krmMomenF {nb m dB : Nat} (s : KRMInputs nb m dB) : ((Fin nb × C6) ⊕ Fin m) → ℚ :=
  (krmOF s).mulVec (krmMomen s)

/-- `coriolis = M_red * (V * (U * v_mod))` of line 1009. -/
def krmCoriolis {nb m dB : Nat} (s : KRMInputs nb m dB) : ((Fin nb × C6) ⊕ Fin m) → ℚ :=
  s.M_red.mulVec ((krmMatV s).mulVec (s.U.mulVec (krmVmod s)))

/-- `V_acc` of line 1011: like `V` with accelerations. -/
def krmVacc {nb m dB : Nat} (s : KRMInputs nb m dB) :
    Matrix ((Fin nb × C6) ⊕ Fin m) (C6 ⊕ Fin m) ℚ := fun r c =>
  match r, c with
  | Sum.inl (i, Sum.inl tr), Sum.inl (Sum.inr tc) =>
    star3 (s.R_Fᵀ.mulVec (fun t => krmAmod s (Sum.inl (i, Sum.inl t)))) tr tc
  | _, _ => 0

/-- `V_rmom` of line 1012: like `V` with the momentum vector. -/
def krmVrmom {nb m dB : Nat} (s : KRMInputs nb m dB) :
    Matrix ((Fin nb × C6) ⊕ Fin m) (C6 ⊕ Fin m) ℚ := fun r c =>
  match r, c with
  | Sum.inl (i, Sum.inl tr), Sum.inl (Sum.inr tc) =>
    star3 (fun t => krmMomen s (Sum.inl (i, Sum.inl t))) tr tc
  | _, _ => 0

/-- `O_thetamom` of line 1013: like `O_B` with the rotational momentum. -/
def krmOthetamom {nb m dB : Nat} (s : KRMInputs nb m dB) :
    Matrix ((Fin nb × C6) ⊕ Fin m) ((Fin nb × C6) ⊕ Fin m) ℚ := fun r c =>
  match r, c with
  | Sum.inl (i, Sum.inr tr), Sum.inl (j, Sum.inr tc) =>
    if i = j then star3 (fun t => krmMomen s (Sum.inl (i, Sum.inr t))) tr tc else 0
  | _, _ => 0

/-- `V_F1` of line 1014: like `V` with the centrifugal vector. -/
def krmVF1 {nb m dB : Nat} (s : KRMInputs nb m dB) :
    Matrix ((Fin nb × C6) ⊕ Fin m) (C6 ⊕ Fin m) ℚ := fun r c =>
  match r, c with
  | Sum.inl (i, Sum.inl tr), Sum.inl (Sum.inr tc) =>
    star3 (fun t => krmCentr s (Sum.inl (i, Sum.inl t))) tr tc
  | _, _ => 0

/-- `V_F2` of line 1015: like `V` with the frame-momentum vector. -/
def krmVF2 {nb m dB : Nat} (s : KRMInputs nb m dB) :
    Matrix ((Fin nb × C6) ⊕ Fin m) (C6 ⊕ Fin m) ℚ := fun r c =>
  match r, c with
  | Sum.inl (i, Sum.inl tr), Sum.inl (Sum.inr tc) =>
    star3 (fun t => krmMomenF s (Sum.inl (i, Sum.inl t))) tr tc
  | _, _ => 0

/-- `V_F3` of line 1016: like `V` with the coriolis vector. -/
def krmVF3 {nb m dB : Nat} (s : KRMInputs nb m dB) :
    Matrix ((Fin nb × C6) ⊕ Fin m) (C6 ⊕ Fin m) ℚ := fun r c =>
  match r, c with
  | Sum.inl (i, Sum.inl tr), Sum.inl (Sum.inr tc) =>
    star3 (fun t => krmCoriolis s (Sum.inl (i, Sum.inl t))) tr tc
  | _, _ => 0

/-- `M_sup = P_W * M_red * P_Wᵀ`, line 1020. -/
def krmMsup {nb m dB : Nat} (s : KRMInputs nb m dB) :
    Matrix ((Fin nb × C6) ⊕ Fin m) ((Fin nb × C6) ⊕ Fin m) ℚ :=
  s.P_W * s.M_red * s.P_Wᵀ

/-- `Ri_1 = P_W * (M_red * V - V_rmom) * U`, line 1023. -/
def krmRi1 {nb m dB : Nat} (s : KRMInputs nb m dB) :
    Matrix ((Fin nb × C6) ⊕ Fin m) ((Fin nb × C6) ⊕ Fin m) ℚ :=
  s.P_W * (s.M_red * krmMatV s - krmVrmom s) * s.U

/-- `Ri_sup`, lines 1024-1025. -/
def krmRisup {nb m dB : Nat} (s : KRMInputs nb m dB) :
    Matrix ((Fin nb × C6) ⊕ Fin m) ((Fin nb × C6) ⊕ Fin m) ℚ :=
  s.P_W * (krmOF s * s.M_red - s.M_red * krmOF s) * s.P_Wᵀ + krmRi1 s - (krmRi1 s)ᵀ +
    krmOB s * s.M_red * s.P_Wᵀ - krmOthetamom s

/-- `Ki_sup`, lines 1028-1030. -/
def krmKisup {nb m dB : Nat} (s : KRMInputs nb m dB) :
    Matrix ((Fin nb × C6) ⊕ Fin m) ((Fin nb × C6) ⊕ Fin m) ℚ :=
  s.P_W * (krmOF s * s.M_red - s.M_red * krmOF s) * krmMatV s * s.U -
    s.Uᵀ * (krmMatV s)ᵀ * s.M_red * krmMatV s * s.U + krmOB s * s.M_red * krmMatV s * s.U -
    s.P_W * (krmVF1 s + krmVF2 s + krmVF3 s) * s.U + s.P_W * s.M_red * krmVacc s * s.U +
    s.Uᵀ * (krmVrmom s)ᵀ * krmMatV s * s.U

/-- `g_quad = (mat_F + mat_B + mat_M - mat_Mᵀ) * v_mod`,
lines 1033-1036, with `mat_F = P_W * O_F * M_red * P_Wᵀ`,
`mat_B = O_B * M_red * P_Wᵀ` and `mat_M = P_W * M_red * V * U`. -/
def krmGquad {nb m dB : Nat} (s : KRMInputs nb m dB) : ((Fin nb × C6) ⊕ Fin m) → ℚ :=
  (s.P_W * krmOF s * s.M_red * s.P_Wᵀ + krmOB s * s.M_red * s.P_Wᵀ +
    s.P_W * s.M_red * krmMatV s * s.U - (s.P_W * s.M_red * krmMatV s * s.U)ᵀ).mulVec
    (krmVmod s)

/-- `ChModalAssembly::ComputeInertialKRMmatrix` (lines 974-1037):
rebuild the per-node operator matrices `V`, `O_B`, `O_F`, `V_acc`,
`V_rmom`, `O_thetamom`, `V_F1..3` from the gathered state (every node,
single-increment loops), then the inertial mass/damping/stiffness
matrices `M_sup`, `Ri_sup`, `Ki_sup` and the quadratic velocity term
`g_quad`. -/
def computeInertialKRMmatrix {nb m dB : Nat} (s : KRMState nb m dB) : KRMState nb m dB :=
  { s with
    V := krmMatV s.inputs, O_B := krmOB s.inputs, O_F := krmOF s.inputs
    V_acc := krmVacc s.inputs, V_rmom := krmVrmom s.inputs
    O_thetamom := krmOthetamom s.inputs
    V_F1 := krmVF1 s.inputs, V_F2 := krmVF2 s.inputs, V_F3 := krmVF3 s.inputs
    M_sup := krmMsup s.inputs, Ri_sup := krmRisup s.inputs, Ki_sup := krmKisup s.inputs
    g_quad := krmGquad s.inputs }

/-- The local displacement `displ_loc` of `ComputeStiffnessMatrix`
(lines 1052-1065): modal tail `modal_q`; per boundary node, the
translational part `R_Fᵀ*(r_B - pos_F) - F0_Aᵀ*(x0_B - pos_F0)` and
the rotational part `Q_to_Rotv(quat_B) - R_Bᵀ*(R_F*rotv_F)`.
`qToRotv` embeds `ChQuaternion::Q_to_Rotv` and `rotOfQuat` the
rotation matrix `ChMatrix33(quaternion)`, both external utilities from
chrono/core. -/
def stiffDisplLoc {nb m dB : Nat}
    (qToRotv : (Fin 4 → ℚ) → (Fin 3 → ℚ))
    (rotOfQuat : (Fin 4 → ℚ) → Matrix (Fin 3) (Fin 3) ℚ)
    (s : KRMInputs nb m dB) : ((Fin nb × C6) ⊕ Fin m) → ℚ := fun i =>
  match i with
  | Sum.inr j => s.modal_q j
  | Sum.inl (i, Sum.inl t) =>
    (s.R_Fᵀ.mulVec (fun u => s.bx (i, Sum.inl u) - s.F_pos u) -
      s.F0_Aᵀ.mulVec (fun u => s.x0b (i, Sum.inl u) - s.F0_pos u)) t
  | Sum.inl (i, Sum.inr t) =>
    (qToRotv (fun u => s.bx (i, Sum.inr u)) -
      (rotOfQuat (fun u => s.bx (i, Sum.inr u)))ᵀ.mulVec (s.R_F.mulVec s.F_rotv)) t

/-- `g_loc = K_red * displ_loc`, line 1068: local internal forces of
the reduced superelement. -/
def stiffGloc {nb m dB : Nat}
    (qToRotv : (Fin 4 → ℚ) → (Fin 3 → ℚ))
    (rotOfQuat : (Fin 4 → ℚ) → Matrix (Fin 3) (Fin 3) ℚ)
    (s : KRMInputs nb m dB) : ((Fin nb × C6) ⊕ Fin m) → ℚ :=
  s.K_red.mulVec (stiffDisplLoc qToRotv rotOfQuat s)

/-- The per-node local force `F_loc = g_loc.segment(6i, 3)` of
line 1087. -/
def stiffFloc {nb m dB : Nat}
    (qToRotv : (Fin 4 → ℚ) → (Fin 3 → ℚ))
    (rotOfQuat : (Fin 4 → ℚ) → Matrix (Fin 3) (Fin 3) ℚ)
    (s : KRMInputs nb m dB) (i : Fin nb) : Fin 3 → ℚ := fun t =>
  stiffGloc qToRotv rotOfQuat s (Sum.inl (i, Sum.inl t))

/-- The per-node local torque `M_loc = g_loc.segment(6i+3, 3)` of
line 1088. -/
def stiffMloc {nb m dB : Nat}
    (qToRotv : (Fin 4 → ℚ) → (Fin 3 → ℚ))
    (rotOfQuat : (Fin 4 → ℚ) → Matrix (Fin 3) (Fin 3) ℚ)
    (s : KRMInputs nb m dB) (i : Fin nb) : Fin 3 → ℚ := fun t =>
  stiffGloc qToRotv rotOfQuat s (Sum.inl (i, Sum.inr t))

/-- The per-node boundary rotation `R_B = ChMatrix33(quat_bou)` of
line 1091. -/
def stiffRB {nb m dB : Nat}
    (rotOfQuat : (Fin 4 → ℚ) → Matrix (Fin 3) (Fin 3) ℚ)
    (s : KRMInputs nb m dB) (i : Fin nb) : Matrix (Fin 3) (Fin 3) ℚ :=
  rotOfQuat (fun u => s.bx (i, Sum.inr u))

/-- `Xi_F1 = Σ_i R_F * star(F_loc(i))`, line 1092. -/
def stiffXiF1 {nb m dB : Nat}
    (qToRotv : (Fin 4 → ℚ) → (Fin 3 → ℚ))
    (rotOfQuat : (Fin 4 → ℚ) → Matrix (Fin 3) (Fin 3) ℚ)
    (s : KRMInputs nb m dB) : Matrix (Fin 3) (Fin 3) ℚ :=
  Finset.univ.sum fun i => s.R_F * star3 (stiffFloc qToRotv rotOfQuat s i)

/-- `Xi_F3`, lines 1093-1094. -/
def stiffXiF3 {nb m dB : Nat}
    (qToRotv : (Fin 4 → ℚ) → (Fin 3 → ℚ))
    (rotOfQuat : (Fin 4 → ℚ) → Matrix (Fin 3) (Fin 3) ℚ)
    (s : KRMInputs nb m dB) : Matrix (Fin 3) (Fin 3) ℚ :=
  Finset.univ.sum fun i =>
    star3 (stiffFloc qToRotv rotOfQuat s i) * s.R_Fᵀ *
        star3 (fun t => s.bx (i, Sum.inl t) - s.F_pos t) * s.R_F -
      star3 (s.R_Fᵀ.mulVec ((stiffRB rotOfQuat s i).mulVec (stiffMloc qToRotv rotOfQuat s i)))

/-- `Xi_F = [[0, Xi_F1], [Xi_F2, Xi_F3]]` with `Xi_F2 = Xi_F1ᵀ`,
lines 1099-1100. -/
def stiffXiF {nb m dB : Nat}
    (qToRotv : (Fin 4 → ℚ) → (Fin 3 → ℚ))
    (rotOfQuat : (Fin 4 → ℚ) → Matrix (Fin 3) (Fin 3) ℚ)
    (s : KRMInputs nb m dB) : Matrix C6 C6 ℚ :=
  Matrix.fromBlocks 0 (stiffXiF1 qToRotv rotOfQuat s) (stiffXiF1 qToRotv rotOfQuat s)ᵀ
    (stiffXiF3 qToRotv rotOfQuat s)

/-- `Xi_H`, filled per node in its lower row blocks
(lines 1095-1096); the upper three rows stay zero. -/
def stiffXiH {nb m dB : Nat}
    (qToRotv : (Fin 4 → ℚ) → (Fin 3 → ℚ))
    (rotOfQuat : (Fin 4 → ℚ) → Matrix (Fin 3) (Fin 3) ℚ)
    (s : KRMInputs nb m dB) : Matrix C6 (Fin nb × C6) ℚ := fun r c =>
  match r, c with
  | Sum.inr tr, (i, Sum.inl tc) => (star3 (stiffFloc qToRotv rotOfQuat s i) * s.R_Fᵀ) tr tc
  | Sum.inr tr, (i, Sum.inr tc) =>
    (s.R_Fᵀ * (stiffRB rotOfQuat s i * star3 (stiffMloc qToRotv rotOfQuat s i))) tr tc
  | Sum.inl _, _ => 0

/-- `Xi_V`, filled per node in its translational row block
(line 1097); zero elsewhere. -/
def stiffXiV {nb m dB : Nat}
    (qToRotv : (Fin 4 → ℚ) → (Fin 3 → ℚ))
    (rotOfQuat : (Fin 4 → ℚ) → Matrix (Fin 3) (Fin 3) ℚ)
    (s : KRMInputs nb m dB) : Matrix (Fin nb × C6) C6 ℚ := fun r c =>
  match r, c with
  | (i, Sum.inl tr), Sum.inr tc => (-(s.R_F * star3 (stiffFloc qToRotv rotOfQuat s i))) tr tc
  | _, _ => 0

/-- `Kg_sup`, lines 1102-1105: geometric stiffness
`Sᵀ*Xi_F*S + Sᵀ*Xi_H + Xi_V*S` on the boundary block, zero elsewhere. -/
def stiffKgsup {nb m dB : Nat}
    (qToRotv : (Fin 4 → ℚ) → (Fin 3 → ℚ))
    (rotOfQuat : (Fin 4 → ℚ) → Matrix (Fin 3) (Fin 3) ℚ)
    (s : KRMInputs nb m dB) :
    Matrix ((Fin nb × C6) ⊕ Fin m) ((Fin nb × C6) ⊕ Fin m) ℚ := fun r c =>
  match r, c with
  | Sum.inl p, Sum.inl q =>
    (s.Sᵀ * stiffXiF qToRotv rotOfQuat s * s.S + s.Sᵀ * stiffXiH qToRotv rotOfQuat s +
      stiffXiV qToRotv rotOfQuat s * s.S) p q
  | _, _ => 0

/-- `ChModalAssembly::ComputeStiffnessMatrix` (lines 1039-1106):
store the local internal force `g_loc`, the material stiffness
`Km_sup = Yᵀ * K_red * Y` (line 1071) and the geometric stiffness
`Kg_sup`. -/
def computeStiffnessMatrix {nb m dB : Nat}
    (qToRotv : (Fin 4 → ℚ) → (Fin 3 → ℚ))
    (rotOfQuat : (Fin 4 → ℚ) → Matrix (Fin 3) (Fin 3) ℚ)
    (s : KRMState nb m dB) : KRMState nb m dB :=
  { s with
    g_loc := stiffGloc qToRotv rotOfQuat s.inputs
    Km_sup := s.inputs.Yᵀ * s.inputs.K_red * s.inputs.Y
    Kg_sup := stiffKgsup qToRotv rotOfQuat s.inputs }

/-- `ChModalAssembly::ComputeDampingMatrix` (lines 1108-1112):
`Rm_sup = Yᵀ * R_red * Y` (the time derivative of `Y` is neglected per
the source comment). -/
def computeDampingMatrix {nb m dB : Nat} (s : KRMState nb m dB) : KRMState nb m dB :=
  { s with Rm_sup := s.inputs.Yᵀ * s.inputs.R_red * s.inputs.Y }

/-- `ChModalAssembly::ComputeModalKRMmatrix` (lines 1114-1125):
assemble the modal tangent blocks from the cached parts; the trailing
`GetLog()` norm prints mutate nothing. -/
def computeModalKRMmatrix {nb m dB : Nat} (s : KRMState nb m dB) : KRMState nb m dB :=
  { s with
    modal_M := s.M_sup
    modal_K := s.Km_sup + s.Kg_sup + s.Ki_sup
    modal_R := s.Rm_sup + s.Ri_sup
    modal_Cq := s.inputs.Cq_red * s.inputs.P_Wᵀ }

/-- The modal branch of `ChModalAssembly::KRMmatricesLoad`
(lines 2709-2716): run the four rebuild steps in order, then load
`modal_Hblock.Get_K() = modal_K*Kfactor + modal_R*Rfactor +
modal_M*Mfactor`. -/
def krmMatricesLoadModal {nb m dB : Nat}
    (qToRotv : (Fin 4 → ℚ) → (Fin 3 → ℚ))
    (rotOfQuat : (Fin 4 → ℚ) → Matrix (Fin 3) (Fin 3) ℚ)
    (Kfactor Rfactor Mfactor : ℚ) (s : KRMState nb m dB) : KRMState nb m dB :=
  let s1 := computeInertialKRMmatrix s
  let s2 := computeStiffnessMatrix qToRotv rotOfQuat s1
  let s3 := computeDampingMatrix s2
  let s4 := computeModalKRMmatrix s3
  { s4 with
    modal_Hblock_K := Kfactor • s4.modal_K + Rfactor • s4.modal_R + Mfactor • s4.modal_M }

end KRMSweep

section ConcreteInputs

/-!
**Section:** Concrete inputs used by the counterexamples and witnesses
-/

/-- A constraint-Jacobian probe with a single row selecting the first
translational coordinate of boundary node 1 (of two boundary nodes). -/
def cqProbe : Matrix (Fin 1) (NodeIdx 2 0) ℚ :=
  fun _ c => if c = ((Sum.inl 1, Sum.inl 0) : NodeIdx 2 0) then 1 else 0

/-- Reduction state for the singular-`K_IIc` scenario: one boundary and
one internal velocity-level coordinate, no constraints, no retained
modes; the internal stiffness block `K_II` is `[[0]]`, so the bordered
block `K_IIc` is the (maximally singular) zero matrix; `K_IB = [[3]]`
couples the internal coordinate to the boundary one, and the full local
mass matrix is the identity. -/
def singularKIIcState : ReductionState 1 1 0 0 0 :=
  { full_M_loc := 1
    full_K_loc := Matrix.fromBlocks !![1] !![2] !![3] !![0]
    full_Cq_loc := 0
    modes := ModeSet.empty
    boundaryBodyMasses := []
    boundaryNodeMasses := []
    Psi_S := 0
    Psi_D := 0
    Psi := 0
    M_red := 0
    K_red := 0
    R_red := 0
    Cq_red := 0 }

/-- A factorization reporting failure (`success = false`) whose solve
operation is the identity — the outcome Eigen's rank-revealing
`SparseQR` presents for a singular system: an unusable least-squares
solve together with an unsuccessful status. -/
def failedFactorization : Matrix (Fin 1 ⊕ Fin 0) (Fin 1 ⊕ Fin 0) ℚ →
    FactorResult (Fin 1 ⊕ Fin 0) :=
  fun _ => { success := false, solve := id }

/-- A damping model returning the zero matrix. -/
def dampingModelZero : Matrix (Fin 1 ⊕ Fin 0) (Fin 1 ⊕ Fin 0) ℚ →
    Matrix (Fin 1 ⊕ Fin 0) (Fin 1 ⊕ Fin 0) ℚ →
    Matrix (Fin 1 ⊕ Fin 1) (Fin 1 ⊕ Fin 0) ℚ →
    Matrix (Fin 1 ⊕ Fin 0) (Fin 1 ⊕ Fin 0) ℚ :=
  fun _ _ _ => 0

/-- Reduction state for the discarded-damping scenario: one boundary
coordinate, no internal coordinates, no constraints, no retained
modes. -/
def dampingTestState : ReductionState 1 0 0 0 0 :=
  { full_M_loc := 1
    full_K_loc := 1
    full_Cq_loc := 0
    modes := ModeSet.empty
    boundaryBodyMasses := []
    boundaryNodeMasses := []
    Psi_S := 0
    Psi_D := 0
    Psi := 0
    M_red := 0
    K_red := 0
    R_red := 0
    Cq_red := 0 }

/-- The all-ones 1×1 reduced matrix. -/
def onesRed : Matrix (Fin 1 ⊕ Fin 0) (Fin 1 ⊕ Fin 0) ℚ := fun _ _ => 1

/-- A damping model whose `ComputeR` returns the (nonzero) all-ones
matrix regardless of its inputs. -/
def dampingModelOnes : Matrix (Fin 1 ⊕ Fin 0) (Fin 1 ⊕ Fin 0) ℚ →
    Matrix (Fin 1 ⊕ Fin 0) (Fin 1 ⊕ Fin 0) ℚ →
    Matrix (Fin 1 ⊕ Fin 0) (Fin 1 ⊕ Fin 0) ℚ →
    Matrix (Fin 1 ⊕ Fin 0) (Fin 1 ⊕ Fin 0) ℚ :=
  fun _ _ _ => onesRed

/-- A successful trivial factorization for the 0-internal-coordinate
case (the bordered block is 0×0). -/
def trivialFactorization : Matrix (Fin 0 ⊕ Fin 0) (Fin 0 ⊕ Fin 0) ℚ →
    FactorResult (Fin 0 ⊕ Fin 0) :=
  fun _ => { success := true, solve := id }

/-- Bookkeeping operations that leave the counters untouched and gather
an empty snapshot, for a minimal `ComputeModesExternalData` scenario. -/
def modesCompOpsId : ModesCompOps Int :=
  { setupInitial := id, setup := id, update := id, gatherX := fun _ => [] }

/-- An eigensolver that returns as many (zero-frequency) modes as were
requested — the behaviour the claim's "silent clamp" alternative would
forbid and a configuration error would never let through. -/
def eigSolverEcho : Unit → Unit → Unit → Nat → EigOutput :=
  fun _ _ _ req =>
    { nrows := 0, ncols := 0
      V_re := fun i => i.elim0, V_im := fun i => i.elim0
      neig := 0, eig_re := fun i => i.elim0, eig_im := fun i => i.elim0
      nfreq := req, freq := fun _ => 0 }

/-- A two-DOF assembly state (`ncoords_w = 2`, carried as the opaque
counter component) with no modes computed yet. -/
def twoDofModesState : ModesCompState Int :=
  { counters := 2, modes := ModeSet.empty, modes_assembly_x0 := [] }

/-- Setup inputs for a modal-mode assembly holding one ordinary internal
body (7 position coordinates, 6 velocity coordinates, no constraints),
boundary counters as produced by the parent setup (two boundary bodies:
14 position, 12 velocity coordinates), and 3 retained modes. -/
def modalSetupInputs : SetupInputs :=
  { offset_x := 0, offset_w := 0, offset_L := 0
    par_nbodies := 2, par_nlinks := 0, par_nmeshes := 0, par_nphysicsitems := 0
    par_ncoords := 14, par_ncoords_w := 12
    par_ndoc := 2, par_ndoc_w := 0, par_ndoc_w_C := 0, par_ndoc_w_D := 0
    par_nsysvars := 16, par_nsysvars_w := 12, par_ndof := 12
    internal_bodylist := [{ dof := 7, dof_w := 6, doc := 0, fixed := false, sleeping := false }]
    internal_linklist := []
    internal_meshlist := []
    internal_otherphysicslist := []
    is_modal := true
    n_modes_coords_w := 3 }

/-- A one-coordinate-per-block reduced basis with all four matrices
equal to the 1×1 identity, for the state-reconstruction witness. -/
def reducedBasisOne : ReducedBasis (Fin 1) (Fin 1) (Fin 1) :=
  { Psi_S := 1, Psi_D := 1, P_B2 := 1, P_I2 := 1 }

/-- State-mapping operations over one-coordinate blocks: plain
difference and plain addition (the quaternion-free special case of the
sub-item protocol). -/
def stateMapOpsOne : StateMapOps (Fin 1) (Fin 1) (Fin 1) (Fin 1) :=
  { getIncrementB := fun xnew xold p => xnew p - xold p
    incrementFull := fun x d i => x i + d i }

/-- A modal-mode assembly state over one-coordinate blocks: old full
state zero, boundary position 1, modal amplitude 2. -/
def internalStateOne : InternalStateData (Fin 1) (Fin 1) (Fin 1) (Fin 1) (Fin 1) :=
  { is_modal := true
    basis := some reducedBasisOne
    full_assembly_x_old := fun _ => 0
    bx := fun _ => 1
    bv := fun _ => 0
    modal_q := fun _ => 2
    modal_q_dt := fun _ => 0
    internalItemsX := fun _ => 0
    internalItemsV := fun _ => 0 }

/-- Switch operations over a bare mode-flag state: the flag itself is
the state and every reduction step is the identity. -/
def switchOpsFlag : SwitchOps Bool :=
  { isModal := id
    setupInitial := id, setup := id, update := id
    gatherOldFullState := id, computeMassCenter := id, computeSelectionMatrix := id
    updateFloatingFrameOfReference := id, storeInitialFrameF0 := id
    computeLocalFullKRM := id, computeModesExternal := id
    setModalModeTrue := id, setupModalData := id, updateTransformationMatrix := id
    doReduction := id, computeInertialKRM := id, computeStiffness := id
    computeDamping := id, computeModalKRM := id, dumpDebugFiles := id
    getSubassemblyMatrices := id }

end ConcreteInputs

section Claims

/-- C1 counterexample: at a concrete input whose bordered internal
stiffness block `K_IIc` is the zero matrix (maximally singular) and
whose factorization reports failure, `DoModalReduction` does not abort:
it commits the static mode `Psi_S = [[-3]]` computed from the unusable
solve, commits the reduced mass matrix (`M_red[0][0] = 10`), and clears
the mode set — all despite `success = false`.  This refutes the claim
that a singular factorization surfaces an error before any reduced
matrices or basis are committed. -/
theorem doModalReduction_commits_despite_failed_factorization :
    sparseAssembly2x2symm (singularKIIcState.full_K_loc.toBlocks₂₂)
        (singularKIIcState.full_Cq_loc.toBlocks₂₂) = 0 ∧
    (failedFactorization 0).success = false ∧
    (doModalReduction failedFactorization dampingModelZero singularKIIcState).Psi_S 0 0 = -3 ∧
    (doModalReduction failedFactorization dampingModelZero singularKIIcState).M_red
      (Sum.inl 0) (Sum.inl 0) = 10 ∧
    (doModalReduction failedFactorization dampingModelZero singularKIIcState).modes.neig = 0 := by
  refine ⟨?_, rfl, ?_, ?_, rfl⟩
  · decide
  · decide
  · simp only [doModalReduction, singularKIIcState, failedFactorization, dampingModelZero,
      sparseAssembly2x2symm, Matrix.mul_apply, Matrix.transpose_apply, Matrix.fromBlocks,
      Matrix.toBlocks₂₁, Matrix.toBlocks₂₂, ModeSet.reAt, ModeSet.empty,
      Fintype.sum_sum_type, Fin.sum_univ_succ, Fin.sum_univ_zero]
    norm_num [Matrix.one_apply, Matrix.of_apply, Sum.elim_inl, Sum.elim_inr]
    rw [if_neg (fun h => Sum.noConfusion h), if_neg (fun h => Sum.noConfusion h)]
    norm_num

/-- C1 amended: `DoModalReduction` never inspects the factorization
status of `K_IIc`: for every solve operation, every damping model and
every state, the committed result is identical whether the
factorization reports failure or success; the reduction always runs to
completion and commits its outputs. -/
theorem doModalReduction_ignores_factorization_status
    {nB nI dB dI m : Nat}
    (solveF : Matrix (Fin nI ⊕ Fin dI) (Fin nI ⊕ Fin dI) ℚ →
      ((Fin nI ⊕ Fin dI) → ℚ) → ((Fin nI ⊕ Fin dI) → ℚ))
    (computeR : Matrix (Fin nB ⊕ Fin m) (Fin nB ⊕ Fin m) ℚ →
      Matrix (Fin nB ⊕ Fin m) (Fin nB ⊕ Fin m) ℚ →
      Matrix (Fin nB ⊕ Fin nI) (Fin nB ⊕ Fin m) ℚ →
      Matrix (Fin nB ⊕ Fin m) (Fin nB ⊕ Fin m) ℚ)
    (s : ReductionState nB nI dB dI m) :
    doModalReduction (fun K => { success := false, solve := solveF K }) computeR s =
      doModalReduction (fun K => { success := true, solve := solveF K }) computeR s := by
  rfl

/-- C5: the damping-model collaborator's result is discarded, not
stored: at a concrete reduction whose damping model returns the nonzero
all-ones matrix, the committed `R_red` is zero (the
`R_red.setZero()` of line 962 overwrites the `ComputeR` output), and
indeed `R_red` is zero after every reduction whatever the damping model
returns. -/
theorem doModalReduction_discards_damping_model_output :
    (doModalReduction trivialFactorization dampingModelOnes dampingTestState).R_red = 0 ∧
    onesRed ≠ 0 ∧
    (∀ (nB nI dB dI m : Nat)
      (factorize : Matrix (Fin nI ⊕ Fin dI) (Fin nI ⊕ Fin dI) ℚ →
        FactorResult (Fin nI ⊕ Fin dI))
      (computeR : Matrix (Fin nB ⊕ Fin m) (Fin nB ⊕ Fin m) ℚ →
        Matrix (Fin nB ⊕ Fin m) (Fin nB ⊕ Fin m) ℚ →
        Matrix (Fin nB ⊕ Fin nI) (Fin nB ⊕ Fin m) ℚ →
        Matrix (Fin nB ⊕ Fin m) (Fin nB ⊕ Fin m) ℚ)
      (s : ReductionState nB nI dB dI m),
      (doModalReduction factorize computeR s).R_red = 0) := by
  refine ⟨rfl, ?_, fun _ _ _ _ _ _ _ _ => rfl⟩
  intro h
  have := congrFun (congrFun h (Sum.inl 0)) (Sum.inl 0)
  simp [onesRed] at this

/-- C6: when `DoModalReduction` completes, the mode set produced by the
modal solver is invalidated by clearing: the eigenvalues `modes_eig`,
the mode-shape matrix `modes_V`, the frequencies `modes_freq` and the
damping ratios `modes_damping_ratio` of the returned state all have
size zero, for every input state, factorization and damping model. -/
theorem doModalReduction_clears_mode_set
    {nB nI dB dI m : Nat}
    (factorize : Matrix (Fin nI ⊕ Fin dI) (Fin nI ⊕ Fin dI) ℚ →
      FactorResult (Fin nI ⊕ Fin dI))
    (computeR : Matrix (Fin nB ⊕ Fin m) (Fin nB ⊕ Fin m) ℚ →
      Matrix (Fin nB ⊕ Fin m) (Fin nB ⊕ Fin m) ℚ →
      Matrix (Fin nB ⊕ Fin nI) (Fin nB ⊕ Fin m) ℚ →
      Matrix (Fin nB ⊕ Fin m) (Fin nB ⊕ Fin m) ℚ)
    (s : ReductionState nB nI dB dI m) :
    (doModalReduction factorize computeR s).modes.neig = 0 ∧
    (doModalReduction factorize computeR s).modes.nrows = 0 ∧
    (doModalReduction factorize computeR s).modes.ncols = 0 ∧
    (doModalReduction factorize computeR s).modes.nfreq = 0 ∧
    (doModalReduction factorize computeR s).modes.ndamp = 0 := by
  exact ⟨rfl, rfl, rfl, rfl, rfl⟩

/-- C3: evaluation at the failing input.  With two boundary nodes and
`R_F` the 90-degree rotation about z, the operator `P_BI` built by
`ComputeLocalFullKRMmatrix` rotates the translational block of node 0
(`P[0][1] = -1 = R_F[0][1]`) but leaves the translational block of
node 1 as the identity (`P[6][7] = 0`, `P[6][6] = 1`), because both
block-filling loops increment the node index twice per iteration; a
constraint row selecting node 1's translation therefore passes through
`full_Cq_loc = full_Cq * P_BI` unrotated.  The claim that every
boundary and internal node's translational block is rotated fails. -/
theorem computeLocalFullKRM_skips_odd_nodes :
    P_BI 2 0 rotZ90 (Sum.inl 0, Sum.inl 0) (Sum.inl 0, Sum.inl 1) = -1 ∧
    rotZ90 0 1 = -1 ∧
    P_BI 2 0 rotZ90 (Sum.inl 1, Sum.inl 0) (Sum.inl 1, Sum.inl 1) = 0 ∧
    P_BI 2 0 rotZ90 (Sum.inl 1, Sum.inl 0) (Sum.inl 1, Sum.inl 0) = 1 ∧
    (computeLocalFullKRMmatrix 1 1 1 cqProbe rotZ90).2.2.2 0 (Sum.inl 1, Sum.inl 1) = 0 := by
  refine ⟨by decide, by decide, by decide, by decide, ?_⟩
  simp only [computeLocalFullKRMmatrix, cqProbe, Matrix.mul_apply, ite_mul, one_mul, zero_mul,
    Finset.sum_ite_eq', Finset.mem_univ, if_true]
  decide

/-- C7: after every `Setup()` call, the total velocity-level coordinate
count satisfies `ncoords_w = n_boundary_coords_w + n_internal_coords_w`
in full mode and `ncoords_w = n_boundary_coords_w + n_modes_coords_w`
in modal mode. -/
theorem setup_ncoords_w_invariant (inp : SetupInputs) :
    (chSetup inp).ncoords_w = (chSetup inp).n_boundary_coords_w +
      (if inp.is_modal then (chSetup inp).n_modes_coords_w
        else (chSetup inp).n_internal_coords_w) := by
  cases h : inp.is_modal <;> simp [chSetup, h]

/-- C4 counterexample: a modal-mode assembly (`is_modal = true`) with
one ordinary internal body.  `Setup` still assigns the body offsets
`(offset_x + n_boundary_coords, offset_w + n_boundary_coords_w,
offset_L + n_boundary_doc_w) = (14, 12, 0)` and still counts its 7
position and 6 velocity coordinates into the internal counters — the
claim that internal items are skipped entirely (no offsets, no
counting) in modal mode fails.  Only the assembly totals exclude
them. -/
theorem setup_modal_still_processes_internal_items :
    modalSetupInputs.is_modal = true ∧
    (chSetup modalSetupInputs).n_internal_coords = 7 ∧
    (chSetup modalSetupInputs).n_internal_coords_w = 6 ∧
    (chSetup modalSetupInputs).bodyOffsets = [(14, 12, 0)] ∧
    (chSetup modalSetupInputs).ncoords_w = 12 + 3 := by
  refine ⟨rfl, by decide, by decide, by decide, by decide⟩

/-- C4 amended: in modal mode `Setup` still iterates the internal
items, assigning them the same offsets and accumulating the same
internal counters as in full mode (the internal loops never consult
`is_modal`); internal DOFs are excluded only from the assembly totals,
which in modal mode count boundary plus modal coordinates and boundary
constraints only. -/
theorem setup_modal_excludes_internal_only_from_totals (inp : SetupInputs) :
    (chSetup { inp with is_modal := true }).bodyOffsets =
      (chSetup { inp with is_modal := false }).bodyOffsets ∧
    (chSetup { inp with is_modal := true }).linkOffsets =
      (chSetup { inp with is_modal := false }).linkOffsets ∧
    (chSetup { inp with is_modal := true }).meshOffsets =
      (chSetup { inp with is_modal := false }).meshOffsets ∧
    (chSetup { inp with is_modal := true }).otherOffsets =
      (chSetup { inp with is_modal := false }).otherOffsets ∧
    (chSetup { inp with is_modal := true }).n_internal_coords =
      (chSetup { inp with is_modal := false }).n_internal_coords ∧
    (chSetup { inp with is_modal := true }).n_internal_coords_w =
      (chSetup { inp with is_modal := false }).n_internal_coords_w ∧
    (chSetup { inp with is_modal := true }).n_internal_doc_w =
      (chSetup { inp with is_modal := false }).n_internal_doc_w ∧
    (chSetup { inp with is_modal := true }).ncoords =
      (chSetup { inp with is_modal := true }).n_boundary_coords + inp.n_modes_coords_w ∧
    (chSetup { inp with is_modal := true }).ncoords_w =
      (chSetup { inp with is_modal := true }).n_boundary_coords_w + inp.n_modes_coords_w ∧
    (chSetup { inp with is_modal := true }).ndoc_w =
      (chSetup { inp with is_modal := true }).n_boundary_doc_w := by
  refine ⟨rfl, rfl, rfl, rfl, rfl, rfl, rfl, rfl, rfl, rfl⟩

/-- C2 counterexample: an assembly with 2 velocity-level DOFs, asked for
100 modes.  `ComputeModesExternalData` returns `true` (success) rather
than failing with a configuration error, and it stores the external
solver's output for the unvalidated request of 100 modes.  The
requested count is not validated against the coordinate count. -/
theorem computeModes_does_not_fail_on_excess_request :
    twoDofModesState.counters = 2 ∧
    (2 : Int) < 100 ∧
    (computeModesExternalData modesCompOpsId eigSolverEcho () () () 100 twoDofModesState).2
      = true ∧
    (computeModesExternalData modesCompOpsId eigSolverEcho () () () 100
      twoDofModesState).1.modes.nfreq = 100 := by
  exact ⟨rfl, by norm_num, rfl, rfl⟩

/-- C2 amended: `ComputeModesExternalData` performs no mode-count
validation at all: for every state and every requested count — in
particular one exceeding the total DOF count — it forwards the request
unchanged to the external eigensolver, stores exactly what the solver
returns (no clamp), zeroes the damping ratios at the frequency count,
and returns `true`. -/
theorem computeModes_forwards_request_unchanged {γ μ : Type}
    (ops : ModesCompOps γ) (solveEig : μ → μ → μ → Nat → EigOutput)
    (full_M full_K full_Cq : μ) (requested : Nat) (s : ModesCompState γ) :
    (computeModesExternalData ops solveEig full_M full_K full_Cq requested s).2 = true ∧
    (computeModesExternalData ops solveEig full_M full_K full_Cq requested s).1.modes.nrows =
      (solveEig full_M full_K full_Cq requested).nrows ∧
    (computeModesExternalData ops solveEig full_M full_K full_Cq requested s).1.modes.ncols =
      (solveEig full_M full_K full_Cq requested).ncols ∧
    (computeModesExternalData ops solveEig full_M full_K full_Cq requested s).1.modes.neig =
      (solveEig full_M full_K full_Cq requested).neig ∧
    (computeModesExternalData ops solveEig full_M full_K full_Cq requested s).1.modes.nfreq =
      (solveEig full_M full_K full_Cq requested).nfreq ∧
    (computeModesExternalData ops solveEig full_M full_K full_Cq requested s).1.modes.ndamp =
      (solveEig full_M full_K full_Cq requested).nfreq := by
  exact ⟨rfl, rfl, rfl, rfl, rfl, rfl⟩

/-- C10: if the assembly is already in modal mode, both overloads of
`SwitchModalReductionON` return the state unchanged: no step of the
reduction sequence runs and no error is raised. -/
theorem switchModalReduction_noop_when_already_modal {σ : Type}
    (ops : SwitchOps σ) (s : σ) (h : ops.isModal s = true) :
    switchModalReductionFull ops s = s ∧ switchModalReductionAuto ops s = s := by
  constructor
  · simp [switchModalReductionFull, h]
  · simp [switchModalReductionAuto, h]

/-- C10 witness: the guard hypothesis holds at a concrete modal-mode
state and the theorem applies. -/
theorem switchModalReduction_noop_witness :
    switchOpsFlag.isModal true = true ∧
    (switchModalReductionFull switchOpsFlag true = true ∧
      switchModalReductionAuto switchOpsFlag true = true) :=
  ⟨rfl, switchModalReduction_noop_when_already_modal switchOpsFlag true rfl⟩

/-- C9: the per-step tangent-operator build is idempotent and touches
only its cached matrices: running the `KRMmatricesLoad`-driven sweep
(`ComputeInertialKRMmatrix`, `ComputeStiffnessMatrix`,
`ComputeDampingMatrix`, `ComputeModalKRMmatrix`, then the `Hblock`
load) twice with identical inputs yields exactly the state of running
it once, and every non-cache field — the gathered state, modal
coordinates, floating-frame data, snapshot and reduction results — is
left unchanged. -/
theorem krmLoad_idempotent_and_frame {nb m dB : Nat}
    (qToRotv : (Fin 4 → ℚ) → (Fin 3 → ℚ))
    (rotOfQuat : (Fin 4 → ℚ) → Matrix (Fin 3) (Fin 3) ℚ)
    (Kfactor Rfactor Mfactor : ℚ) (s : KRMState nb m dB) :
    krmMatricesLoadModal qToRotv rotOfQuat Kfactor Rfactor Mfactor
        (krmMatricesLoadModal qToRotv rotOfQuat Kfactor Rfactor Mfactor s) =
      krmMatricesLoadModal qToRotv rotOfQuat Kfactor Rfactor Mfactor s ∧
    (krmMatricesLoadModal qToRotv rotOfQuat Kfactor Rfactor Mfactor s).inputs = s.inputs := by
  refine ⟨?_, rfl⟩
  apply KRMState.ext <;> rfl

/-- C8: in modal mode (with the basis sized), `SetInternalStateWithModes`
reconstructs the internal displacement increment as
`Δx_internal = P_I2 * (Psi_S * P_B2ᵀ * Δx_boundary + Psi_D * Δη)`,
where `Δx_boundary` is the boundary increment of the gathered state
with respect to the stored old full state and `Δη` the modal-amplitude
increment (current amplitudes minus zero); the state advanced by that
increment is scattered into the internal sub-items and stored as the
new old full state. -/
theorem setInternalState_reconstruction_formula {xB xI wB wI μ : Type}
    [Fintype wB] [Fintype wI] [Fintype μ]
    (ops : StateMapOps xB xI wB wI)
    (s : InternalStateData xB xI wB wI μ) (b : ReducedBasis wB wI μ)
    (hmodal : s.is_modal = true) (hbasis : s.basis = some b) :
    ((setInternalStateWithModes ops s).internalItemsX = fun i =>
      ops.incrementFull s.full_assembly_x_old
        (Sum.elim
          (ops.getIncrementB s.bx (fun p => s.full_assembly_x_old (Sum.inl p)))
          (b.P_I2.mulVec
            (b.Psi_S.mulVec (b.P_B2ᵀ.mulVec
              (ops.getIncrementB s.bx (fun p => s.full_assembly_x_old (Sum.inl p)))) +
              b.Psi_D.mulVec (fun j => s.modal_q j - 0))))
        (Sum.inr i)) ∧
    ((setInternalStateWithModes ops s).full_assembly_x_old =
      ops.incrementFull s.full_assembly_x_old
        (Sum.elim
          (ops.getIncrementB s.bx (fun p => s.full_assembly_x_old (Sum.inl p)))
          (b.P_I2.mulVec
            (b.Psi_S.mulVec (b.P_B2ᵀ.mulVec
              (ops.getIncrementB s.bx (fun p => s.full_assembly_x_old (Sum.inl p)))) +
              b.Psi_D.mulVec (fun j => s.modal_q j - 0))))) := by
  obtain ⟨mod, bas, xold, sbx, sbv, sq, sqdt, itemsX, itemsV⟩ := s
  change mod = true at hmodal
  change bas = some b at hbasis
  subst hmodal
  subst hbasis
  have hDelta :
      (Sum.elim (ops.getIncrementB sbx (fun p => xold (Sum.inl p)))
        (fun q =>
          (b.P_I2 * b.Psi_S * b.P_B2ᵀ).mulVec
              (ops.getIncrementB sbx (fun p => xold (Sum.inl p))) q +
            (b.P_I2 * b.Psi_D).mulVec (fun j => sq j - 0) q) : (wB ⊕ wI) → ℚ) =
      Sum.elim (ops.getIncrementB sbx (fun p => xold (Sum.inl p)))
        (b.P_I2.mulVec
          (b.Psi_S.mulVec (b.P_B2ᵀ.mulVec
            (ops.getIncrementB sbx (fun p => xold (Sum.inl p)))) +
            b.Psi_D.mulVec (fun j => sq j - 0))) := by
    funext x
    cases x with
    | inl p => rfl
    | inr q => simp [Matrix.mulVec_add, Matrix.mulVec_mulVec, Matrix.mul_assoc]
  constructor
  · show (fun i => ops.incrementFull xold
        (Sum.elim (ops.getIncrementB sbx (fun p => xold (Sum.inl p)))
          (fun q =>
            (b.P_I2 * b.Psi_S * b.P_B2ᵀ).mulVec
                (ops.getIncrementB sbx (fun p => xold (Sum.inl p))) q +
              (b.P_I2 * b.Psi_D).mulVec (fun j => sq j - 0) q)) (Sum.inr i)) = _
    rw [hDelta]
  · show ops.incrementFull xold
        (Sum.elim (ops.getIncrementB sbx (fun p => xold (Sum.inl p)))
          (fun q =>
            (b.P_I2 * b.Psi_S * b.P_B2ᵀ).mulVec
                (ops.getIncrementB sbx (fun p => xold (Sum.inl p))) q +
              (b.P_I2 * b.Psi_D).mulVec (fun j => sq j - 0) q)) = _
    rw [hDelta]

/-- C8 witness: the modal-mode and sized-basis hypotheses hold at the
concrete one-coordinate state and the reconstruction theorem applies
to it. -/
theorem setInternalState_reconstruction_witness :
    internalStateOne.is_modal = true ∧
    internalStateOne.basis = some reducedBasisOne ∧
    ((setInternalStateWithModes stateMapOpsOne internalStateOne).internalItemsX = fun i =>
      stateMapOpsOne.incrementFull internalStateOne.full_assembly_x_old
        (Sum.elim
          (stateMapOpsOne.getIncrementB internalStateOne.bx
            (fun p => internalStateOne.full_assembly_x_old (Sum.inl p)))
          (reducedBasisOne.P_I2.mulVec
            (reducedBasisOne.Psi_S.mulVec (reducedBasisOne.P_B2ᵀ.mulVec
              (stateMapOpsOne.getIncrementB internalStateOne.bx
                (fun p => internalStateOne.full_assembly_x_old (Sum.inl p)))) +
              reducedBasisOne.Psi_D.mulVec
                (fun j => internalStateOne.modal_q j - 0))))
        (Sum.inr i)) :=
  ⟨rfl, rfl,
    (setInternalState_reconstruction_formula stateMapOpsOne internalStateOne
      reducedBasisOne rfl rfl).1⟩

end Claims

end ChronoModal
